import Mathlib

/-!
Shallow embedding of `flopy/utils/util_array.py` (classes `ArrayFormat`,
`Util2d`, `Transient2d`) for checking the natural-language specification.

Python strings are modelled as `List Char`; Python `int(...)`/`float(...)`
conversions are modelled as partial parsers over the numeric-literal subset
the module actually feeds them; exceptions are modelled with `Except`;
numpy numeric values are modelled as exact rationals (float32 rounding of
in-range small values is the identity in this model).
-/

deriving instance DecidableEq for Except

namespace Flopy

/-- Python `str` modelled as a list of characters. -/
abbrev PyStr := List Char

/-- Convert a Lean string literal to the model type. -/
def toPy (s : String) : PyStr := s.toList

/-- Python `str.lower()` (ASCII). -/
def pyLower (s : PyStr) : PyStr := s.map Char.toLower

/-- Python `str.upper()` (ASCII). -/
def pyUpper (s : PyStr) : PyStr := s.map Char.toUpper

/-- Python `str.strip()` with no argument: drop leading/trailing whitespace. -/
def pyStrip (s : PyStr) : PyStr :=
  ((s.dropWhile Char.isWhitespace).reverse.dropWhile Char.isWhitespace).reverse

/-- Python `str.split()` with no argument: split on whitespace runs,
dropping empty fields. -/
def pySplitWs (s : PyStr) : List PyStr :=
  (s.splitOnP Char.isWhitespace).filter (· ≠ [])

/-- Python `needle in hay` substring test. -/
def pyContains (hay needle : PyStr) : Bool :=
  hay.tails.any (fun t => needle.isPrefixOf t)

/-- Python slicing `s[a:b]` with step 1 (negative indices count from the
end, out-of-range indices clamp). -/
def pySlice (s : PyStr) (a b : Int) : PyStr :=
  let n : Int := s.length
  let norm : Int → Nat := fun i => if i < 0 then (n + i).toNat else min i.toNat s.length
  (s.take (norm b)).drop (norm a)

/-- The apostrophe character (used by Python `repr` of a string list). -/
def quoteChar : Char := Char.ofNat 39

/-- The double-quote character. -/
def dquoteChar : Char := Char.ofNat 34

/-- Value of a nonempty all-digit string. -/
def digitsToNat? (s : PyStr) : Option Nat :=
  match s with
  | [] => none
  | _ =>
    if s.all Char.isDigit then
      some (s.foldl (fun acc c => acc * 10 + (c.toNat - 48)) 0)
    else none

/-- Python `int(str)` on the decimal-literal subset: optional surrounding
whitespace, optional sign, digits. -/
def pyInt? (s : PyStr) : Option Int :=
  match pyStrip s with
  | [] => none
  | c :: rest =>
    if c = '-' then (digitsToNat? rest).map (fun n => -(n : Int))
    else if c = '+' then (digitsToNat? rest).map (fun n => (n : Int))
    else (digitsToNat? (c :: rest)).map (fun n => (n : Int))

/-- Sign and digits with no surrounding whitespace (used for a float
exponent part). -/
def pyIntNoStrip? (s : PyStr) : Option Int :=
  match s with
  | [] => none
  | c :: rest =>
    if c = '-' then (digitsToNat? rest).map (fun n => -(n : Int))
    else if c = '+' then (digitsToNat? rest).map (fun n => (n : Int))
    else (digitsToNat? (c :: rest)).map (fun n => (n : Int))

/-- Mantissa of a Python float literal: `digits`, `digits.digits`,
`digits.` or `.digits`. -/
def parseMantissa? (m : PyStr) : Option ℚ :=
  match m.splitOn '.' with
  | [a] => (digitsToNat? a).map (fun n => (n : ℚ))
  | [a, b] =>
    if a = [] ∧ b = [] then none
    else if (a.all Char.isDigit) ∧ (b.all Char.isDigit) then
      let av : ℚ := ((digitsToNat? a).getD 0 : Nat)
      let bv : ℚ := ((digitsToNat? b).getD 0 : Nat)
      some (av + bv / (10 : ℚ) ^ b.length)
    else none
  | _ => none

/-- Python `float(str)` on the numeric-literal subset: optional surrounding
whitespace, optional sign, mantissa, optional `e`/`E` exponent. -/
def pyFloat? (s : PyStr) : Option ℚ :=
  let t := pyStrip s
  let (neg, u) : Bool × PyStr :=
    match t with
    | c :: rest =>
      if c = '-' then (true, rest) else if c = '+' then (false, rest) else (false, t)
    | [] => (false, t)
  let app : ℚ → ℚ := fun v => if neg then -v else v
  match (pyLower u).splitOn 'e' with
  | [m] => (parseMantissa? m).map app
  | [m, ex] => do
    let mv ← parseMantissa? m
    let ev ← pyIntNoStrip? ex
    pure (app (mv * (10 : ℚ) ^ ev))
  | _ => none

/-- numpy dtypes supported by the module core (`np.int`/`np.int32` and
`np.float32`; `np.bool` is outside the claims' scope). -/
inductive DType where
  | int
  | float
deriving DecidableEq, Repr

/-- Model of `dtype(a)` cast used in `Util2d.load_txt`: Python `int`/`np.float32`
string conversion by dtype. -/
def castOfDtype (d : DType) (s : PyStr) : Option ℚ :=
  match d with
  | .int => (pyInt? s).map (fun i => (i : ℚ))
  | .float => pyFloat? s

/-- C-style truncation toward zero, as performed by numpy `astype` from a
float kind to an integer kind. -/
def truncRat (q : ℚ) : Int := if 0 ≤ q then ⌊q⌋ else ⌈q⌉

/-- Model of `ndarray.astype(dtype)` on one element. -/
def castD (d : DType) (q : ℚ) : ℚ :=
  match d with
  | .int => (truncRat q : ℚ)
  | .float => q

/-- Result of `ArrayFormat.decode_fortran_descriptor`: either the FREE or
BINARY sentinel, or `(npl, fmt, width, decimal)`. -/
inductive FortranFD where
  | free
  | binary
  | spec (npl : Int) (letter : Char) (width : Int) (decimal : Option Int)
deriving DecidableEq, Repr

/-- The format letters scanned for, in source order: `['I','G','E','F']`. -/
def fmtLetters : List Char := ['I', 'G', 'E', 'F']

/-- Scan loop `for fmt in fmts: if fmt in raw: ...` of
`decode_fortran_descriptor`. -/
def decodeScan (raw0 : PyStr) (decimal : Option Int) :
    List Char → Except PyStr FortranFD
  | [] => .error (toPy "Unrecognized format type")
  | c :: cs =>
    if pyContains raw0 [c] then
      let parts := raw0.splitOn c
      let p0 := parts.getD 0 []
      let p1 := parts.getD 1 []
      match pyInt? p1 with
      | none => .error (toPy "invalid literal for int")
      | some w =>
        let npl : Int := (pyInt? p0).getD 1
        let letter := if c = 'G' then 'E' else c
        .ok (.spec npl letter w decimal)
    else decodeScan raw0 decimal cs

/-- The string actually inspected by `decode_fortran_descriptor`: quotes
removed, whitespace stripped, then the first and last characters (the
parentheses) dropped. -/
def descriptorInterior (fd0 : PyStr) : PyStr :=
  let fd1 := fd0.filter (fun c => c ≠ quoteChar)
  let fd2 := fd1.filter (fun c => c ≠ dquoteChar)
  pySlice (pyStrip fd2) 1 (-1)

/-- Model of `ArrayFormat.decode_fortran_descriptor(fd)`: strip quotes, strip the
outer first/last characters, detect FREE/BINARY substrings, otherwise
split off the decimal part after `.` and scan for the first of I,G,E,F
(`G` canonicalized to `E`; empty count before the letter defaults to 1). -/
def decode_fortran_descriptor (fd0 : PyStr) : Except PyStr FortranFD :=
  let fd := descriptorInterior fd0
  if pyContains (pyUpper fd) (toPy "FREE") then .ok .free
  else if pyContains (pyUpper fd) (toPy "BINARY") then .ok .binary
  else
    if fd.contains '.' then
      let raw := fd.splitOn '.'
      match pyInt? (raw.getD 1 []) with
      | none => .error (toPy "invalid literal for int")
      | some dec => decodeScan (pyUpper (raw.getD 0 [])) (some dec) fmtLetters
    else
      decodeScan (pyUpper fd) none fmtLetters

/-- The free-format keyword list `free_fmt` of `parse_control_record`. -/
def freeFmtKeywords : List PyStr :=
  [toPy "open/close", toPy "internal", toPy "external", toPy "constant"]

/-- Python `str(list_of_strings)`: `['a', 'b']` with single quotes. -/
def pyReprStrList (xs : List PyStr) : PyStr :=
  ['['] ++ (List.intercalate (toPy ", ")
    (xs.map (fun s => quoteChar :: (s ++ [quoteChar])))) ++ [']']

/-- The dispatch test `str(raw[0]) in str(free_fmt)`: the first token is a
substring of the Python repr of the keyword list. -/
def freeDispatch (line : PyStr) : Bool :=
  match pySplitWs (pyStrip (pyLower line)) with
  | [] => false
  | t :: _ => pyContains (pyReprStrList freeFmtKeywords) t

/-- The dict returned by `Util2d.parse_control_record`. -/
structure CrDict where
  type : Option PyStr
  cnstnt : Option ℚ
  nunit : Option Int
  iprn : Int
  fmtin : Option PyStr
  fname : Option PyStr
deriving DecidableEq, Repr

/-- Multiplier parse used in the free-format branches:
`np.float(tok.lower().replace('d','e'))` for float dtype, `np.int(tok.lower())`
for int dtype (tokens are already lowercased). -/
def parseCnstntTok (dtype : DType) (tok : PyStr) : Option ℚ :=
  match dtype with
  | .float => pyFloat? (tok.map (fun c => if c = 'd' then 'e' else c))
  | .int => (pyInt? tok).map (fun i => (i : ℚ))

/-- Multiplier parse of the fixed-format branch from columns 10-20:
float dtype lowercases and maps `d` to `e`; int dtype coerces a zero
multiplier to 1. -/
def parseCnstntFixed (dtype : DType) (line : PyStr) : Option ℚ :=
  match dtype with
  | .float =>
    pyFloat? ((pyLower (pyStrip (pySlice line 10 20))).map
      (fun c => if c = 'd' then 'e' else c))
  | .int =>
    (pyInt? (pySlice line 10 20)).map (fun i => if i = 0 then (1 : ℚ) else (i : ℚ))

/-- Model of `Util2d.parse_control_record(line, current_unit, dtype, ext_unit_dict,
array_format)`.  `ext_unit_dict` maps unit numbers to filenames;
`array_format = some "mt3d"` enables the MT3D sentinel locat codes. -/
def parse_control_record (line : PyStr) (current_unit : Option Int)
    (dtype : DType) (ext_unit_dict : Option (List (Int × PyStr)))
    (array_format : Option PyStr) : Except PyStr CrDict :=
  let raw := pySplitWs (pyStrip (pyLower line))
  match raw with
  | [] => .error (toPy "IndexError: list index out of range")
  | tok0 :: rest =>
    if pyContains (pyReprStrList freeFmtKeywords) tok0 then
      -- free-format branch: freefmt = raw[0]
      let cnstnt0 : Except PyStr (Option ℚ) :=
        if tok0 = toPy "constant" ∨ tok0 = toPy "internal" then
          match rest with
          | [] => .error (toPy "IndexError: list index out of range")
          | t :: _ =>
            match parseCnstntTok dtype t with
            | none => .error (toPy "ValueError")
            | some c => .ok (some c)
        else .ok none
      match cnstnt0 with
      | .error e => .error e
      | .ok c0 =>
        if tok0 = toPy "internal" then
          match rest with
          | _ :: t2 :: t3 :: _ =>
            match pyInt? t3 with
            | none => .error (toPy "ValueError")
            | some ip =>
              .ok ⟨some tok0, c0, none, ip, some (pyStrip t2), none⟩
          | _ => .error (toPy "IndexError: list index out of range")
        else if tok0 = toPy "external" then
          match rest with
          | t1 :: t2 :: t3 :: t4 :: _ =>
            let fname : Option PyStr :=
              match ext_unit_dict, pyInt? t1 with
              | some d, some u => (d.lookup u).map pyStrip
              | _, _ => none
            match pyInt? t1, parseCnstntTok dtype t2, pyInt? t4 with
            | some u, some c, some ip =>
              .ok ⟨some tok0, some c, some u, ip, some (pyStrip t3), fname⟩
            | _, _, _ => .error (toPy "ValueError")
          | _ => .error (toPy "IndexError: list index out of range")
        else if tok0 = toPy "open/close" then
          match rest with
          | t1 :: t2 :: t3 :: t4 :: _ =>
            match parseCnstntTok dtype t2, pyInt? t4 with
            | some c, some ip =>
              .ok ⟨some tok0, some c, none, ip, some (pyStrip t3), some (pyStrip t1)⟩
            | _, _ => .error (toPy "ValueError")
          | _ => .error (toPy "IndexError: list index out of range")
        else
          -- includes the 'constant' keyword and any other substring token
          .ok ⟨some tok0, c0, none, -1, none, none⟩
    else
      -- fixed-format branch
      match pyInt? (pySlice line 0 10) with
      | none => .error (toPy "ValueError")
      | some locat =>
        match parseCnstntFixed dtype line with
        | none => .error (toPy "ValueError")
        | some cnstnt =>
          let fmtin : Option PyStr :=
            if locat ≠ 0 then some (pyStrip (pySlice line 20 40)) else none
          let iprn : Int :=
            if locat ≠ 0 then (pyInt? (pySlice line 40 50)).getD 0 else -1
          let (freefmt, nunit, fmtin2) :
              Option PyStr × Option Int × Option PyStr :=
            if locat = 0 then (some (toPy "constant"), none, fmtin)
            else if locat < 0 then
              (some (toPy "external"), some (-locat), some (toPy "(binary)"))
            else if current_unit = some locat then
              (some (toPy "internal"), some locat, fmtin)
            else
              (some (toPy "external"), some locat, fmtin)
          if array_format = some (toPy "mt3d") then
            if locat = 100 then
              .ok ⟨some (toPy "internal"), some cnstnt, current_unit, iprn,
                   fmtin2, none⟩
            else if locat = 101 then
              .error (toPy "MT3D block format not supported...")
            else if locat = 102 then
              .error (toPy "MT3D zonal format not supported...")
            else if locat = 103 then
              .ok ⟨some (toPy "internal"), some cnstnt, current_unit, iprn,
                   some (toPy "(free)"), none⟩
            else
              .ok ⟨freefmt, some cnstnt, nunit, iprn, fmtin2, none⟩
          else
            .ok ⟨freefmt, some cnstnt, nunit, iprn, fmtin2, none⟩

/-- Active layout of `load_txt` after decoding `fmtin`. -/
inductive NplSpec where
  | free
  | fixed (npl : Int) (width : Int)
deriving DecidableEq, Repr

/-- The fixed-width slicing loop of `load_txt`: up to `count` fields of
`width` characters starting at `istart`, stopping at the first all-blank
field. -/
def sliceFields (line : PyStr) (width : Int) :
    Nat → Int → Int → List PyStr
  | 0, _, _ => []
  | k + 1, istart, istop =>
    let txtval := pySlice line istart istop
    if pyStrip txtval ≠ [] then
      txtval :: sliceFields line width k istop (istop + width)
    else []

/-- Tokens produced from one line of input. -/
def lineTokens (spec : NplSpec) (line : PyStr) : List PyStr :=
  match spec with
  | .free => pySplitWs line
  | .fixed npl width => sliceFields line width npl.toNat 0 width

/-- The NaN-sentinel finalization of `load_txt`: any unfilled element left
in the working array is an error. -/
def finalizeData (data : List (Option ℚ)) : Except PyStr (List ℚ) :=
  if data.any Option.isNone then
    .error (toPy "Util2d.load_txt() error: np.NaN in data array")
  else .ok (data.map (fun o => o.getD 0))

/-- The inner `for a in raw` loop of `load_txt`: cast each token, store it,
and return the finished array early when the last element is filled. -/
def fillTokens (cast : PyStr → Option ℚ) (target : Nat) :
    List PyStr → List (Option ℚ) → Nat →
    Except PyStr ((List (Option ℚ) × Nat) ⊕ List ℚ)
  | [], data, d => .ok (.inl (data, d))
  | a :: rest, data, d =>
    match cast a with
    | none => .error (toPy "Util2d:unable to cast value")
    | some v =>
      let data := data.set d (some v)
      if (d : Int) = (target : Int) - 1 then
        .ok (.inr (data.map (fun o => o.getD 0)))
      else fillTokens cast target rest data (d + 1)

/-- The outer line loop of `load_txt`: ends at end of input (or an empty
line, modelling `readline` returning the empty string) or when `d` has
reached the target count. -/
def loadTxtLines (cast : PyStr → Option ℚ) (spec : NplSpec) (target : Nat) :
    List PyStr → List (Option ℚ) → Nat → Except PyStr (List ℚ)
  | [], data, _ => finalizeData data
  | line :: restLines, data, d =>
    if line = [] ∨ d = target then finalizeData data
    else
      match fillTokens cast target (lineTokens spec line) data d with
      | .error e => .error e
      | .ok (.inr result) => .ok result
      | .ok (.inl (data2, d2)) => loadTxtLines cast spec target restLines data2 d2

/-- Model of `Util2d.load_txt(shape, file_in, dtype, fmtin)`: load a wrapped or
fixed-width (possibly touching) text array; returns the flat row-major
element list (the final numpy resize to `(nrow, ncol)` is a reshape).
A `(BINARY)` descriptor makes the slicing arithmetic operate on `None`
widths in the source, an error here. -/
def load_txt (nrow ncol : Nat) (lines : List PyStr) (dtype : DType)
    (fmtin : PyStr) : Except PyStr (List ℚ) :=
  match decode_fortran_descriptor fmtin with
  | .error e => .error e
  | .ok .free =>
    loadTxtLines (castOfDtype dtype) .free (nrow * ncol) lines
      (List.replicate (nrow * ncol) none) 0
  | .ok .binary =>
    .error (toPy "TypeError: unsupported operand type")
  | .ok (.spec npl _ width _) =>
    loadTxtLines (castOfDtype dtype) (.fixed npl width) (nrow * ncol) lines
      (List.replicate (nrow * ncol) none) 0

/-- One row of `Util2d.array2string`: format each element, inserting a
line break after element `j` when `(j+1) % column_length == 0` and
`(j != 0 or ncol == 1)`. -/
def rowString (ncol : Nat) (cl : Int) (fmtf : ℚ → PyStr) (row : List ℚ) :
    PyStr :=
  ((List.range ncol).map (fun j =>
    fmtf (row.getD j 0) ++
      (if Int.fmod ((j : Int) + 1) cl = 0 ∧ (j ≠ 0 ∨ ncol = 1)
       then ['\n'] else []))).flatten

/-- Model of `Util2d.array2string(shape, data, ...)` with the items-per-line count
and the per-element formatter (Python `fmt.format`) made explicit.  A zero
`column_length` is the `ZeroDivisionError` of `ncol % column_length`. -/
def array2string (nrow ncol : Nat) (data : List (List ℚ)) (cl : Int)
    (fmtf : ℚ → PyStr) : Except PyStr PyStr :=
  if cl = 0 then .error (toPy "ZeroDivisionError")
  else
    let linereturnflag := Int.fmod (ncol : Int) cl ≠ 0
    .ok (((List.range nrow).map (fun i =>
      rowString ncol cl fmtf (data.getD i []) ++
        (if linereturnflag then ['\n'] else []))).flatten)

/-- Mutable state of an `ArrayFormat` instance (npl, letter, width,
decimal, free/binary flags, plus the owning grid's dtype and full row
width used for defaults). -/
structure ArrayFormatState where
  dtype : DType
  nplFull : Nat
  npl : Option Int
  letter : Option Char
  width : Option Int
  decimal : Option Int
  isfree : Bool
  isbinary : Bool
deriving DecidableEq, Repr

/-- Model of `default_float_width` instance attribute. -/
def defaultFloatWidth : Int := 15

/-- Model of `default_int_width` instance attribute. -/
def defaultIntWidth : Int := 10

/-- Model of `default_float_decimal` instance attribute. -/
def defaultFloatDecimal : Int := 6

/-- Model of `ArrayFormat._set_defaults()`. -/
def setDefaults (st : ArrayFormatState) : ArrayFormatState :=
  match st.dtype with
  | .int =>
    { st with npl := some (st.nplFull : Int), letter := some 'I',
              width := some defaultIntWidth, decimal := none }
  | .float =>
    { st with npl := some (st.nplFull : Int), letter := some 'G',
              width := some defaultFloatWidth, decimal := some defaultFloatDecimal }

/-- The `width` branch of `ArrayFormat.__setattr__`: for float dtype a
width below the decimal count raises (comparing against a `None` decimal
is a `TypeError`), a width below the default of 15 is stored with a
warning, and otherwise — including every assignment on an integer dtype —
the state is left unchanged.  Returns the new state and emitted warnings. -/
def setWidth (st : ArrayFormatState) (value : Int) :
    Except PyStr (ArrayFormatState × List PyStr) :=
  if st.dtype = .float then
    match st.decimal with
    | none => .error (toPy "TypeError: int and NoneType comparison")
    | some dec =>
      if value < dec then
        .error (toPy "width cannot be less than decimal")
      else if value < defaultFloatWidth then
        .ok ({ st with width := some value },
             [toPy "ArrayFormat warning:setting width less than default"])
      else .ok (st, [])
  else .ok (st, [])

/-- Model of `ArrayFormat._get_fortran_format()`: `(FREE)`, `(BINARY)`, or the
descriptor rebuilt from npl, letter, width and decimal (a `None` field
fails string formatting). -/
def formatFortran (st : ArrayFormatState) : Except PyStr PyStr :=
  if st.isfree then .ok (toPy "(FREE)")
  else if st.isbinary then .ok (toPy "(BINARY)")
  else
    match st.npl, st.letter, st.width with
    | some npl, some letter, some width =>
      let core := ['('] ++ toPy (toString npl) ++ [letter] ++ toPy (toString width)
      match st.decimal with
      | some dec => .ok (core ++ ['.'] ++ toPy (toString dec) ++ [')'])
      | none => .ok (core ++ [')'])
    | _, _, _ => .error (toPy "TypeError: format of None")

/-- The `Util2d.__value` attribute after `parse_value` classification:
a numeric scalar (already dtype-cast), an existing external filename, or
a dense array matching the declared shape. -/
inductive U2Value where
  | scalar (v : ℚ)
  | fileRef (path : PyStr)
  | dense (a : List (List ℚ))
deriving DecidableEq, Repr

/-- State of a `Util2d` instance, together with the owning model
attributes it consumes (`free_format`, `model_ws`, `external_path`,
`verbose`). -/
structure Util2d where
  nrow : Nat
  ncol : Nat
  dtype : DType
  value : U2Value
  cnstnt : ℚ
  iprn : Int
  name : PyStr
  locat : Option Int
  how : PyStr
  format : ArrayFormatState
  extFilename : Option PyStr
  modelFree : Bool
  modelWs : PyStr
  externalPath : Option PyStr
deriving DecidableEq, Repr

/-- Model of `Util2d._array`: materialize the raw value without the multiplier.
`env` supplies the text content (line list) of external files; the
one-shot cache `__value_built` is a pure no-op here. -/
def Util2d.rawArray (env : PyStr → List PyStr) (g : Util2d) :
    Except PyStr (List (List ℚ)) :=
  match g.value with
  | .fileRef p =>
    match formatFortran g.format with
    | .error e => .error e
    | .ok fmtin =>
      match load_txt g.nrow g.ncol (env p) g.dtype fmtin with
      | .error e => .error e
      | .ok flat =>
        .ok (((List.range g.nrow).map (fun i =>
          ((List.range g.ncol).map (fun j =>
            castD g.dtype (flat.getD (i * g.ncol + j) 0))))))
  | .scalar v => .ok (List.replicate g.nrow (List.replicate g.ncol v))
  | .dense a => .ok a

/-- The multiplier actually applied by `Util2d.array`: a stored 0.0 is
treated as 1.0. -/
def effectiveMultiplier (c : ℚ) : ℚ := if c = 0 then 1 else c

/-- Model of `Util2d.array`: the consumer-facing array, the raw array multiplied by
the multiplier (a zero multiplier replaced by 1) and cast to dtype. -/
def Util2d.array (env : PyStr → List PyStr) (g : Util2d) :
    Except PyStr (List (List ℚ)) :=
  let cnstnt : ℚ := effectiveMultiplier g.cnstnt
  (g.rawArray env).map (fun m =>
    m.map (fun row => row.map (fun v => castD g.dtype (v * cnstnt))))

/-- The structured content of a Python format pattern `{0:w[.d]c}` (the
brace-delimited pattern text itself is represented by its fields). -/
structure PyFormatPattern where
  width : Int
  decimal : Option Int
  conv : Char
deriving DecidableEq, Repr

/-- Model of `ArrayFormat._get_python_format()`: the `(npl, pattern)` pair; `I`
becomes `d`; without an npl the full row width is used in free mode and
anything else raises. -/
def pythonFmt (st : ArrayFormatState) : Except PyStr (Int × PyFormatPattern) :=
  match st.letter, st.width with
  | some letter, some width =>
    let pat : PyFormatPattern :=
      ⟨width, st.decimal, if letter = 'I' then 'd' else letter⟩
    match st.npl with
    | none =>
      if st.isfree then .ok ((st.nplFull : Int), pat)
      else .error (toPy "format is not free and npl is not set")
    | some npl => .ok (npl, pat)
  | _, _ => .error (toPy "TypeError: format of None")

/-- Model of `os.path.join` for two components ('/' separator). -/
def pyPathJoin (a b : PyStr) : PyStr :=
  if b.head? = some '/' then b
  else if a = [] then b
  else if a.getLast? = some '/' then a ++ b
  else a ++ ['/'] ++ b

/-- Model of `os.path.split(p)[-1]`: the basename. -/
def pyBasename (p : PyStr) : PyStr := ((p.splitOn '/').getLast?).getD []

/-- One control-record line, represented by the arguments the source
feeds into the corresponding format string. -/
inductive CrLine where
  | constantFree (value : ℚ) (name : PyStr)
  | fixedCr (locat : Int) (cnstnt : ℚ) (fortran : PyStr) (iprn : Int) (name : PyStr)
  | internalFree (cnstnt : ℚ) (fortran : PyStr) (iprn : Int) (name : PyStr)
  | opencloseCr (path : PyStr) (cnstnt : ℚ) (fortran : PyStr) (iprn : Int) (name : PyStr)
  | externalFree (locat : Int) (cnstnt : ℚ) (fortran : PyStr) (iprn : Int) (name : PyStr)
deriving DecidableEq, Repr

/-- Model of `self._ext_filename = self.name.replace(' ','_') + ".ref"`. -/
def Util2d.extFilenameDefault (g : Util2d) : PyStr :=
  (g.name.map (fun c => if c = ' ' then '_' else c)) ++ toPy ".ref"

/-- Model of `Util2d.filename` property. -/
def Util2d.filename (g : Util2d) : PyStr :=
  match g.value with
  | .fileRef p => pyBasename p
  | _ =>
    match g.extFilename with
    | some e => pyBasename e
    | none => pyBasename g.extFilenameDefault

/-- Model of `Util2d.python_file_path` property. -/
def Util2d.pythonFilePath (g : Util2d) : PyStr :=
  let p0 : PyStr := if g.modelWs ≠ toPy "." then g.modelWs else []
  let p1 := match g.externalPath with
            | some e => pyPathJoin p0 e
            | none => p0
  pyPathJoin p1 g.filename

/-- Model of `Util2d.model_file_path` property. -/
def Util2d.modelFilePath (g : Util2d) : PyStr :=
  let p0 : PyStr := match g.externalPath with
                    | some e => pyPathJoin [] e
                    | none => []
  pyPathJoin p0 g.filename

/-- Model of `Util2d._get_fixed_cr(locat)` (both supported dtypes format the same
fields). -/
def Util2d.getFixedCr (g : Util2d) (locat : Int) : Except PyStr CrLine :=
  (formatFortran g.format).map (fun f => .fixedCr locat g.cnstnt f g.iprn g.name)

/-- Model of `Util2d.get_constant_cr(value)`: free form carries the value; fixed
form falls back to the fixed record with locat 0 (which formats the
stored multiplier, not `value`). -/
def Util2d.getConstantCr (g : Util2d) (value : ℚ) : Except PyStr CrLine :=
  if g.modelFree then
    (pythonFmt g.format).map (fun _ => .constantFree value g.name)
  else g.getFixedCr 0

/-- Model of `Util2d.get_internal_cr()`. -/
def Util2d.getInternalCr (g : Util2d) : Except PyStr CrLine :=
  if g.modelFree then
    (formatFortran g.format).map (fun f => .internalFree g.cnstnt f g.iprn g.name)
  else
    match g.locat with
    | none => .error (toPy "TypeError: unsupported format of None")
    | some l => g.getFixedCr l

/-- Model of `Util2d.get_openclose_cr()`. -/
def Util2d.getOpencloseCr (g : Util2d) : Except PyStr CrLine :=
  (formatFortran g.format).map
    (fun f => .opencloseCr g.modelFilePath g.cnstnt f g.iprn g.name)

/-- Model of `Util2d.get_external_cr()`: allocate the next unit from the model,
negate it for binary, register the external file, and emit the record. -/
def Util2d.getExternalCr (g : Util2d) (nextUnit : Int) :
    Except PyStr (CrLine × (PyStr × Int × Bool)) :=
  let locat : Int := if g.format.isbinary then -(nextUnit.natAbs : Int) else nextUnit
  let reg := (g.modelFilePath, locat, g.format.isbinary)
  if g.modelFree then
    (formatFortran g.format).map
      (fun f => (.externalFree locat g.cnstnt f g.iprn g.name, reg))
  else (g.getFixedCr locat).map (fun cr => (cr, reg))

/-- Filesystem side effects of `get_file_entry`, recorded as data. -/
inductive FileEffect where
  | writeArrayFile (path : PyStr) (binary : Bool)
  | removeFile (path : PyStr)
  | copyFile (src dst : PyStr)
deriving DecidableEq, Repr

/-- The returned entry: a control record alone, or with an inline body. -/
inductive EntryText where
  | withBody (cr : CrLine) (body : PyStr)
  | crOnly (cr : CrLine)
deriving DecidableEq, Repr

/-- Result of `get_file_entry`: emitted warnings, filesystem effects,
registrar registrations, and the entry text. -/
structure FileEntryOut where
  warnings : List PyStr
  effects : List FileEffect
  registers : List (PyStr × Int × Bool)
  entry : EntryText
deriving DecidableEq, Repr

/-- Model of `Util2d.string` property: the raw array rendered with the python
format (`fmtNum` models `pattern.format`). -/
def Util2d.entryString (env : PyStr → List PyStr) (fmtNum : ℚ → PyStr)
    (g : Util2d) : Except PyStr PyStr := do
  let (npl, _) ← pythonFmt g.format
  let raw ← g.rawArray env
  array2string g.nrow g.ncol raw npl fmtNum

/-- The filesystem work of the external/openclose branch of
`get_file_entry`: a dense or scalar value is written out to
`python_file_path` (binary per the format); a file-valued grid whose
path differs from the target removes any existing target and copies the
source there; a file already at the target needs nothing. -/
def Util2d.externalWriteEffects (g : Util2d) (fsExists : PyStr → Bool) :
    List FileEffect :=
  match g.value with
  | .fileRef p =>
    if p ≠ g.pythonFilePath then
      (if fsExists g.pythonFilePath
       then [FileEffect.removeFile g.pythonFilePath] else []) ++
      [FileEffect.copyFile p g.pythonFilePath]
    else []
  | _ => [FileEffect.writeArrayFile g.pythonFilePath g.format.isbinary]

/-- The strategy `get_file_entry` starts from: the lowercased override
when one is given, else the stored strategy. -/
def Util2d.resolvedHow (g : Util2d) (howArg : Option PyStr) : PyStr :=
  match howArg with
  | some h => pyLower h
  | none => g.how

/-- Model of `Util2d.get_file_entry(how)`.  `env` is external file content,
`fsExists` the `os.path.exists` oracle, `fmtNum` the numeric formatter,
`nextUnit` the registrar's `next_ext_unit()` answer. -/
def Util2d.get_file_entry (env : PyStr → List PyStr)
    (fsExists : PyStr → Bool) (fmtNum : ℚ → PyStr) (nextUnit : Int)
    (g : Util2d) (howArg : Option PyStr) : Except PyStr FileEntryOut :=
  let how0 := g.resolvedHow howArg
  let forced := g.format.isbinary ∧
                (how0 = toPy "constant" ∨ how0 = toPy "internal")
  let how := if forced then
               (if g.modelFree then toPy "openclose" else toPy "external")
             else how0
  let warns : List PyStr :=
    if forced then [toPy "warning: resetting how to external since format is binary"]
    else []
  if how = toPy "internal" then
    if g.format.isbinary then
      .error (toPy "Util2d error: how is internal, but format is binary")
    else do
      let cr ← g.getInternalCr
      let body ← Util2d.entryString env fmtNum g
      .ok ⟨warns, [], [], .withBody cr body⟩
  else if how = toPy "external" ∨ how = toPy "openclose" then
    if how = toPy "openclose" ∧ ¬ g.modelFree then
      .error (toPy "Util2d error: how is openclose, but model does not support free fmt")
    else
      let effects : List FileEffect := g.externalWriteEffects fsExists
      if how = toPy "external" then do
        let (cr, reg) ← g.getExternalCr nextUnit
        .ok ⟨warns, effects, [reg], .crOnly cr⟩
      else do
        let cr ← g.getOpencloseCr
        .ok ⟨warns, effects, [], .crOnly cr⟩
  else if how = toPy "constant" then
    match g.value with
    | .scalar v => (g.getConstantCr v).map (fun cr => ⟨warns, [], [], .crOnly cr⟩)
    | _ => do
      let raw ← g.rawArray env
      match raw.flatten.dedup with
      | [v] => (g.getConstantCr v).map (fun cr => ⟨warns, [], [], .crOnly cr⟩)
      | _ => .error (toPy "Util2d error: how is constant, but array is not uniform")
  else .error (toPy "Util2d.get_file_entry() error: unrecognized how")

section Transient2d

variable {A B V : Type}

/-- Model of `min(...)` over a Python iterable of ints (`ValueError` on empty is
the `none` case). -/
def listMin? (l : List Int) : Option Int :=
  l.foldl (fun acc x =>
    match acc with
    | none => some x
    | some m => some (min m x)) none

/-- Model of `range(kper, -1, -1)`: `kper, kper-1, ..., 0` (empty for negative
`kper`). -/
def descendingRange (kper : Int) : List Int :=
  if kper < 0 then []
  else (List.range (kper.toNat + 1)).map (fun j => kper - Int.ofNat j)

/-- Model of `Transient2d.__getitem__(kper)`.  The stored mapping is an
association list with the dict's keys; `zeroEntry` models
`get_zero_2d(kper)`, which returns the file-entry STRING of a freshly
built all-zero `Util2d` (not a grid object), hence the sum type. -/
def transient2dGetitem (t2ds : List (Int × A)) (zeroEntry : Int → B)
    (kper : Int) : Except PyStr (A ⊕ B) :=
  match t2ds.lookup kper with
  | some u => .ok (.inl u)
  | none =>
    match listMin? (t2ds.map Prod.fst) with
    | none => .error (toPy "ValueError: min() arg is an empty sequence")
    | some m =>
      if kper < m then .ok (.inr (zeroEntry kper))
      else
        match (descendingRange kper).findSome? (fun i => t2ds.lookup i) with
        | some u => .ok (.inl u)
        | none =>
          .error (toPy "Transient2d.__getitem__(): error: could not find an entry before kper")

/-- Model of `Transient2d.get_kper_entry(kper)`: `(itmp, file entry string)` —
`(1, entry)` when the period is stored, `(1, zero entry)` when it
precedes the first key, `(-1, '')` otherwise. -/
def getKperEntry (t2ds : List (Int × A)) (entryOf : A → PyStr)
    (zeroEntry : Int → PyStr) (kper : Int) : Except PyStr (Int × PyStr) :=
  match t2ds.lookup kper with
  | some u => .ok (1, entryOf u)
  | none =>
    match listMin? (t2ds.map Prod.fst) with
    | none => .error (toPy "ValueError: min() arg is an empty sequence")
    | some m =>
      if kper < m then .ok (1, zeroEntry kper)
      else .ok (-1, [])

/-- The dict case of `Transient2d.build_transient_sequence`: every key is
cast to int and rejected when negative; each value is built into a
`Util2d` by `__get_2d_instance` (abstracted as `mk`). -/
def buildTransientSequence (mk : Int → V → Except PyStr A) :
    List (Int × V) → Except PyStr (List (Int × A))
  | [] => .ok []
  | (k, v) :: rest =>
    if k < 0 then .error (toPy "Transient2d error: key cannot be negative")
    else
      match mk k v with
      | .error e => .error (toPy "Transient2d error building Util2d " ++ e)
      | .ok u =>
        (buildTransientSequence mk rest).map (fun tl => (k, u) :: tl)

end Transient2d

/-! ## Theorems -/

/-- C5 counterexample: the string `"FREE"` contains `FREE`, yet
`decode_fortran_descriptor` does not return the free sentinel — the
FREE/BINARY test is applied only after the first and last characters are
dropped, so the interior `"RE"` misses it and the scan then fails on the
`E`. -/
theorem c5_free_sentinel_counterexample :
    pyContains (pyUpper (toPy "FREE")) (toPy "FREE") = true ∧
    decode_fortran_descriptor (toPy "FREE") =
      .error (toPy "invalid literal for int") := ⟨by decide, by rfl⟩

/-- C5 (amended): decoding `"(10F15.6)"` gives items-per-line 10, code F,
width 15, decimals 6; `"(5G12.4)"` gives code E (G canonicalized); a
string whose interior — after removing quotes, trimming whitespace and
dropping the first and last characters — contains FREE (resp. BINARY,
when FREE is absent) case-insensitively yields the free (resp. binary)
sentinel; and an empty count before the recognized letter defaults to
items-per-line 1, as in `"(F9.0)"`. -/
theorem c5_descriptor_decode_amended :
    decode_fortran_descriptor (toPy "(10F15.6)") =
        .ok (.spec 10 'F' 15 (some 6)) ∧
    decode_fortran_descriptor (toPy "(5G12.4)") =
        .ok (.spec 5 'E' 12 (some 4)) ∧
    (∀ s : PyStr, pyContains (pyUpper (descriptorInterior s)) (toPy "FREE") = true →
        decode_fortran_descriptor s = .ok .free) ∧
    (∀ s : PyStr, pyContains (pyUpper (descriptorInterior s)) (toPy "BINARY") = true →
        pyContains (pyUpper (descriptorInterior s)) (toPy "FREE") = false →
        decode_fortran_descriptor s = .ok .binary) ∧
    decode_fortran_descriptor (toPy "(F9.0)") = .ok (.spec 1 'F' 9 (some 0)) := by
  refine ⟨by rfl, by rfl, ?_, ?_, by rfl⟩
  · intro s h
    simp [decode_fortran_descriptor, h]
  · intro s hb hf
    simp [decode_fortran_descriptor, hb, hf]

/-- C5 witness: the amended FREE clause applied at the concrete
descriptor `"(free)"`. -/
theorem c5_descriptor_decode_amended_witness :
    pyContains (pyUpper (descriptorInterior (toPy "(free)"))) (toPy "FREE") = true ∧
    decode_fortran_descriptor (toPy "(free)") = .ok .free :=
  ⟨by decide, c5_descriptor_decode_amended.2.2.1 (toPy "(free)") (by decide)⟩

/-- C10: assigning `width` on an `ArrayFormat` stores the value only in
the narrowing case — for float dtype a width below the current decimal
count raises; otherwise a width below the default of 15 is stored with a
warning; otherwise the state is unchanged; and for integer dtype every
width assignment leaves the state unchanged. -/
theorem c10_width_setattr (st : ArrayFormatState) (w d : Int) :
    (st.dtype = .float → st.decimal = some d →
      ((w < d → setWidth st w = .error (toPy "width cannot be less than decimal")) ∧
       (¬ w < d → w < defaultFloatWidth →
         setWidth st w = .ok ({ st with width := some w },
           [toPy "ArrayFormat warning:setting width less than default"])) ∧
       (¬ w < d → ¬ w < defaultFloatWidth → setWidth st w = .ok (st, [])))) ∧
    (st.dtype = .int → setWidth st w = .ok (st, [])) := by
  constructor
  · intro hf hd
    refine ⟨fun hlt => ?_, fun hge hlt => ?_, fun hge hge2 => ?_⟩
    · simp [setWidth, hf, hd, hlt]
    · simp [setWidth, hf, hd, hge, hlt]
    · simp [setWidth, hf, hd, hge, hge2]
  · intro hi
    simp [setWidth, hi]

/-- A sample float-dtype `ArrayFormat` state used by witnesses. -/
def afSt0 : ArrayFormatState :=
  ⟨.float, 10, some 10, some 'G', some 15, some 6, false, false⟩

/-- C10 witness: on a float-dtype state with decimal 6, assigning width
10 (below the default 15) stores it and warns. -/
theorem c10_width_setattr_witness :
    setWidth afSt0 10 = .ok ({ afSt0 with width := some 10 },
      [toPy "ArrayFormat warning:setting width less than default"]) :=
  ((c10_width_setattr afSt0 10 6).1 rfl rfl).2.1 (by decide) (by decide)

/-- Truncation toward zero fixes integers. -/
theorem truncRat_intCast (n : ℤ) : truncRat (n : ℚ) = n := by
  unfold truncRat
  split <;> simp

/-- Lemma: `astype` fixes integer-valued rationals under both dtypes. -/
theorem castD_intCast (d : DType) (n : ℤ) : castD d ((n : ℤ) : ℚ) = (n : ℚ) := by
  cases d <;> simp [castD, truncRat_intCast]

/-- C1: the consumer-facing `array` equals the raw materialized array
multiplied by the effective multiplier (0.0 treated as 1.0) and cast to
dtype; the raw array is independent of the multiplier; and an all-2 raw
array yields an all-2 `array` under multiplier 0.0 and an all-6 `array`
under multiplier 3.0. -/
theorem c1_array_multiplier (env : PyStr → List PyStr) (g : Util2d) :
    (g.array env = (g.rawArray env).map (fun m =>
        m.map (fun row => row.map (fun v =>
          castD g.dtype (v * effectiveMultiplier g.cnstnt))))) ∧
    (∀ c : ℚ, Util2d.rawArray env { g with cnstnt := c } = g.rawArray env) ∧
    (g.cnstnt = 0 →
      g.rawArray env = .ok (List.replicate g.nrow (List.replicate g.ncol 2)) →
      g.array env = .ok (List.replicate g.nrow (List.replicate g.ncol 2))) ∧
    (g.cnstnt = 3 →
      g.rawArray env = .ok (List.replicate g.nrow (List.replicate g.ncol 2)) →
      g.array env = .ok (List.replicate g.nrow (List.replicate g.ncol 6))) := by
  refine ⟨rfl, fun c => rfl, fun h0 hraw => ?_, fun h3 hraw => ?_⟩
  · have h2 : castD g.dtype (2 * effectiveMultiplier g.cnstnt) = 2 := by
      rw [h0]
      have := castD_intCast g.dtype 2
      simpa [effectiveMultiplier] using this
    simp [Util2d.array, hraw, Except.map, List.map_replicate, h2]
  · have h6 : castD g.dtype (2 * effectiveMultiplier g.cnstnt) = 6 := by
      rw [h3]
      have := castD_intCast g.dtype 6
      have e : (2 : ℚ) * effectiveMultiplier 3 = ((6 : ℤ) : ℚ) := by
        norm_num [effectiveMultiplier]
      rw [e, castD_intCast]
      norm_num
    simp [Util2d.array, hraw, Except.map, List.map_replicate, h6]

/-- A scalar-valued sample grid with multiplier 0.0 (raw value 2). -/
def u2dScalar2 : Util2d :=
  ⟨2, 3, .float, .scalar 2, 0, -1, toPy "arr", none, toPy "constant",
   afSt0, none, true, toPy ".", none⟩

/-- C1 witness: the all-2/multiplier-0.0 clause applied to a concrete
2×3 scalar-2 grid. -/
theorem c1_array_multiplier_witness :
    Util2d.array (fun _ => []) u2dScalar2 =
      .ok (List.replicate 2 (List.replicate 3 2)) :=
  (c1_array_multiplier (fun _ => []) u2dScalar2).2.2.1 rfl rfl

/-- A uniform all-7 dense 2×2 grid owned by a fixed-format model. -/
def u2dFixedConst : Util2d :=
  ⟨2, 2, .float, .dense [[7, 7], [7, 7]], 1, -1, toPy "arr", none,
   toPy "constant", ⟨.float, 2, some 2, some 'G', some 15, some 6, false, false⟩,
   none, false, toPy ".", none⟩

/-- C7 counterexample: rendering the uniform all-7 array with the
`constant` strategy in a fixed-format container emits the fixed constant
record, whose numeric payload is the stored multiplier 1.0 — not the
array's single unique value 7. -/
theorem c7_constant_value_counterexample :
    Util2d.get_file_entry (fun _ => []) (fun _ => false) (fun _ => []) 1
        u2dFixedConst none =
      .ok ⟨[], [], [], .crOnly (.fixedCr 0 1 (toPy "(2G15.6)") (-1) (toPy "arr"))⟩ ∧
    (1 : ℚ) ≠ 7 := by
  exact ⟨rfl, by norm_num⟩

/-- C7 (amended): rendering a dense (non-scalar) grid with the `constant`
strategy fails whenever the array is not uniform-valued; when it is
uniform, a free-format container emits a constant header carrying the
single unique value, while a fixed-format container emits the fixed
constant record (locat 0), which carries the stored multiplier instead. -/
theorem c7_constant_strategy_amended (env : PyStr → List PyStr)
    (fsExists : PyStr → Bool) (fmtNum : ℚ → PyStr) (nextUnit : Int)
    (g : Util2d) (howArg : Option PyStr) (a : List (List ℚ))
    (hv : g.value = .dense a)
    (hbin : g.format.isbinary = false)
    (hres : g.resolvedHow howArg = toPy "constant") :
    (a.flatten.dedup.length ≠ 1 →
      Util2d.get_file_entry env fsExists fmtNum nextUnit g howArg =
        .error (toPy "Util2d error: how is constant, but array is not uniform")) ∧
    (∀ v : ℚ, a.flatten.dedup = [v] → g.modelFree = true →
      ∀ p : Int × PyFormatPattern, pythonFmt g.format = .ok p →
      Util2d.get_file_entry env fsExists fmtNum nextUnit g howArg =
        .ok ⟨[], [], [], .crOnly (.constantFree v g.name)⟩) ∧
    (∀ v : ℚ, a.flatten.dedup = [v] → g.modelFree = false →
      ∀ f : PyStr, formatFortran g.format = .ok f →
      Util2d.get_file_entry env fsExists fmtNum nextUnit g howArg =
        .ok ⟨[], [], [], .crOnly (.fixedCr 0 g.cnstnt f g.iprn g.name)⟩) := by
  refine ⟨fun hne => ?_, fun v hd hMF p hp => ?_, fun v hd hMF f hf => ?_⟩
  · rcases hdd : a.flatten.dedup with _ | ⟨w, _ | ⟨w2, t⟩⟩
    · simp +decide [Util2d.get_file_entry, hres, hbin, hv, Util2d.rawArray, hdd,
             bind, Except.bind]
    · exact absurd (by simp [hdd]) hne
    · simp +decide [Util2d.get_file_entry, hres, hbin, hv, Util2d.rawArray, hdd,
             bind, Except.bind]
  · simp +decide [Util2d.get_file_entry, hres, hbin, hv, Util2d.rawArray, hd,
          Util2d.getConstantCr, hMF, hp, Except.map, bind, Except.bind]
  · simp +decide [Util2d.get_file_entry, hres, hbin, hv, Util2d.rawArray, hd,
          Util2d.getConstantCr, Util2d.getFixedCr, hMF, hf, Except.map, bind, Except.bind]

/-- A uniform all-7 dense 2×2 grid owned by a free-format model. -/
def u2dFreeConst : Util2d :=
  ⟨2, 2, .float, .dense [[7, 7], [7, 7]], 1, -1, toPy "arr", none,
   toPy "constant", ⟨.float, 2, some 2, some 'G', some 15, some 6, false, false⟩,
   none, true, toPy ".", none⟩

/-- C7 witness: the uniform free-format clause at the all-7 grid. -/
theorem c7_constant_strategy_amended_witness :
    Util2d.get_file_entry (fun _ => []) (fun _ => false) (fun _ => []) 1
        u2dFreeConst none =
      .ok ⟨[], [], [], .crOnly (.constantFree 7 (toPy "arr"))⟩ :=
  (c7_constant_strategy_amended (fun _ => []) (fun _ => false) (fun _ => []) 1
      u2dFreeConst none [[7, 7], [7, 7]] rfl rfl rfl).2.1 7 (by rfl) rfl
      (2, ⟨15, some 6, 'G'⟩) (by rfl)

/-- C8: when the format is binary and the resolved strategy (override if
given, else stored) is `constant` or `internal`, `get_file_entry` forces
the strategy to `openclose` for a free-format model and to `external`
otherwise, emits a warning, and succeeds with the corresponding record
(for `external`, the allocated unit is negated for binary and the file is
registered). -/
theorem c8_binary_forcing (env : PyStr → List PyStr) (fsExists : PyStr → Bool)
    (fmtNum : ℚ → PyStr) (nextUnit : Int) (g : Util2d) (howArg : Option PyStr)
    (f : PyStr)
    (hbin : g.format.isbinary = true)
    (hhow : g.resolvedHow howArg = toPy "constant" ∨
            g.resolvedHow howArg = toPy "internal")
    (hfort : formatFortran g.format = .ok f) :
    (g.modelFree = true →
      Util2d.get_file_entry env fsExists fmtNum nextUnit g howArg =
        .ok ⟨[toPy "warning: resetting how to external since format is binary"],
             g.externalWriteEffects fsExists, [],
             .crOnly (.opencloseCr g.modelFilePath g.cnstnt f g.iprn g.name)⟩) ∧
    (g.modelFree = false →
      Util2d.get_file_entry env fsExists fmtNum nextUnit g howArg =
        .ok ⟨[toPy "warning: resetting how to external since format is binary"],
             g.externalWriteEffects fsExists,
             [(g.modelFilePath, -(nextUnit.natAbs : Int), true)],
             .crOnly (.fixedCr (-(nextUnit.natAbs : Int)) g.cnstnt f g.iprn
                      g.name)⟩) := by
  rcases hhow with hc | hc <;>
    refine ⟨fun hMF => ?_, fun hMF => ?_⟩ <;>
    simp +decide [Util2d.get_file_entry, hc, hbin, hMF, Util2d.getOpencloseCr,
          Util2d.getExternalCr, Util2d.getFixedCr, hfort, Except.map, bind,
          Except.bind]

/-- A binary-format dense grid owned by a fixed-format model with stored
strategy `internal`. -/
def u2dBinInternal : Util2d :=
  ⟨1, 2, .float, .dense [[1, 2]], 1, -1, toPy "arr", none, toPy "internal",
   ⟨.float, 2, some 2, some 'G', some 15, some 6, false, true⟩,
   none, false, toPy ".", none⟩

/-- C8 witness: binary format with stored `internal` strategy in a
fixed-format model is forced to `external` with a warning. -/
theorem c8_binary_forcing_witness :
    Util2d.get_file_entry (fun _ => []) (fun _ => false) (fun _ => []) 5
        u2dBinInternal none =
      .ok ⟨[toPy "warning: resetting how to external since format is binary"],
           [.writeArrayFile (toPy "arr.ref") true],
           [(toPy "arr.ref", -5, true)],
           .crOnly (.fixedCr (-5) 1 (toPy "(BINARY)") (-1) (toPy "arr"))⟩ :=
  (c8_binary_forcing (fun _ => []) (fun _ => false) (fun _ => []) 5
      u2dBinInternal none (toPy "(BINARY)") rfl (Or.inr rfl) rfl).2 rfl

/-- Rendering of one row as the claim words it: a line break after every
n-th value, with a trailing break when the row length is not a multiple
of n (spec-side definition, for comparison with `array2string`). -/
def claimWrap (nrow ncol : Nat) (data : List (List ℚ)) (n : Int)
    (fmtf : ℚ → PyStr) : PyStr :=
  ((List.range nrow).map (fun i =>
    ((List.range ncol).map (fun j =>
      fmtf ((data.getD i []).getD j 0) ++
        (if Int.fmod ((j : Int) + 1) n = 0 then ['\n'] else []))).flatten ++
      (if Int.fmod (ncol : Int) n ≠ 0 then ['\n'] else []))).flatten

/-- Rendering of one row as amended: a break after every n-th value
except after the first value when n = 1 and the row has more than one
column. -/
def amendedWrapRow (ncol : Nat) (n : Int) (fmtf : ℚ → PyStr)
    (row : List ℚ) : PyStr :=
  ((List.range ncol).map (fun j =>
    fmtf (row.getD j 0) ++
      (if Int.fmod ((j : Int) + 1) n = 0 ∧ ¬(j = 0 ∧ n = 1 ∧ 1 < ncol)
       then ['\n'] else []))).flatten

/-- The amended rendering: `amendedWrapRow` per row plus the trailing
break exactly when the row length is not a multiple of n. -/
def amendedWrap (nrow ncol : Nat) (data : List (List ℚ)) (n : Int)
    (fmtf : ℚ → PyStr) : PyStr :=
  ((List.range nrow).map (fun i =>
    amendedWrapRow ncol n fmtf (data.getD i []) ++
      (if Int.fmod (ncol : Int) n ≠ 0 then ['\n'] else []))).flatten

/-- C9 counterexample: with items-per-line 1 and a row of length 2, the
code emits no break after the first value (`"xx\n"`), while the claimed
break-after-every-n-th rendering gives `"x\nx\n"`. -/
theorem c9_wrap_counterexample :
    array2string 1 2 [[1, 2]] 1 (fun _ => ['x']) = .ok (toPy "xx\n") ∧
    claimWrap 1 2 [[1, 2]] 1 (fun _ => ['x']) = toPy "x\nx\n" ∧
    toPy "xx\n" ≠ toPy "x\nx\n" := by
  exact ⟨by rfl, by rfl, by decide⟩

/-- The break condition actually evaluated by `array2string` agrees with
the amended one on every in-range column index. -/
theorem c9_cond_iff (n : Int) (hn : 0 < n) (ncol j : Nat) (hj : j < ncol) :
    ((Int.fmod ((j : Int) + 1) n = 0 ∧ (j ≠ 0 ∨ ncol = 1)) ↔
     (Int.fmod ((j : Int) + 1) n = 0 ∧ ¬(j = 0 ∧ n = 1 ∧ 1 < ncol))) := by
  have hone : ∀ _ : j = 0, Int.fmod ((j : Int) + 1) n = 0 → n = 1 := by
    intro hj0 hm
    subst hj0
    have hm1 : Int.fmod 1 n = 0 := by simpa using hm
    rw [Int.fmod_eq_emod _ (le_of_lt hn)] at hm1
    have hdvd : n ∣ 1 := Int.dvd_of_emod_eq_zero hm1
    have := Int.le_of_dvd (by norm_num) hdvd
    omega
  constructor
  · rintro ⟨hm, hd⟩
    refine ⟨hm, ?_⟩
    rintro ⟨hj0, _, hcol⟩
    rcases hd with h | h
    · exact h hj0
    · omega
  · rintro ⟨hm, hd⟩
    refine ⟨hm, ?_⟩
    by_cases hj0 : j = 0
    · right
      have hn1 := hone hj0 hm
      have : ¬ (1 : Nat) < ncol := fun hcol => hd ⟨hj0, hn1, hcol⟩
      omega
    · exact Or.inl hj0

/-- C9 (amended): for every positive items-per-line count n,
`array2string` inserts a line break after every n-th value of a row —
except after the first value when n = 1 and the row has more than one
column — and a trailing line break at the end of a row exactly when the
row length is not a multiple of n. -/
theorem c9_wrap_amended (nrow ncol : Nat) (data : List (List ℚ)) (n : Int)
    (fmtf : ℚ → PyStr) (hn : 0 < n) :
    array2string nrow ncol data n fmtf =
      .ok (amendedWrap nrow ncol data n fmtf) := by
  unfold array2string amendedWrap
  rw [if_neg (by omega)]
  refine congrArg Except.ok (congrArg List.flatten (List.map_congr_left ?_))
  intro i _
  refine congrArg (fun s => s ++ _) ?_
  unfold rowString amendedWrapRow
  refine congrArg List.flatten (List.map_congr_left ?_)
  intro j hj
  refine congrArg (fun s => _ ++ s) ?_
  exact if_congr (c9_cond_iff n hn ncol j (List.mem_range.mp hj)) rfl rfl

/-- C9 witness: the amended rendering applied at n = 1, row length 2. -/
theorem c9_wrap_amended_witness :
    array2string 1 2 [[1, 2]] 1 (fun _ => ['x']) =
      .ok (amendedWrap 1 2 [[1, 2]] 1 (fun _ => ['x'])) :=
  c9_wrap_amended 1 2 [[1, 2]] 1 (fun _ => ['x']) (by norm_num)

/-- C6: fixed-width text decoding slices lines into width-sized fields
(touching fields need no delimiters): the line `"123456789012345"` with
width 5 and 3 items per line parses, for a 3-element target, to
`[12345, 67890, 12345]`; a token that cannot be cast to the dtype is an
error; and a float-dtype (or any) load whose input is exhausted with
elements still unfilled fails on the NaN sentinel. -/
theorem c6_fixed_width_load :
    (load_txt 1 3 [toPy "123456789012345"] .float (toPy "(3F5.0)") =
      .ok [12345, 67890, 12345]) ∧
    (∀ (nrow ncol : Nat) (fmtin line : PyStr) (lines : List PyStr)
       (dtype : DType) (npl lw : Int) (l : Char) (dec : Option Int)
       (a : PyStr) (rest : List PyStr),
       decode_fortran_descriptor fmtin = .ok (.spec npl l lw dec) →
       lineTokens (.fixed npl lw) line = a :: rest →
       castOfDtype dtype a = none →
       line ≠ [] → 0 < nrow * ncol →
       load_txt nrow ncol (line :: lines) dtype fmtin =
         .error (toPy "Util2d:unable to cast value")) ∧
    (∀ (nrow ncol : Nat) (fmtin : PyStr) (dtype : DType)
       (npl lw : Int) (l : Char) (dec : Option Int),
       decode_fortran_descriptor fmtin = .ok (.spec npl l lw dec) →
       0 < nrow * ncol →
       load_txt nrow ncol [] dtype fmtin =
         .error (toPy "Util2d.load_txt() error: np.NaN in data array")) := by
  refine ⟨by decide, ?_, ?_⟩
  · intro nrow ncol fmtin line lines dtype npl lw l dec a rest hdec htok hcast
      hne htgt
    have h0 : ¬ ((0 : Nat) = nrow * ncol) := by omega
    simp [load_txt, hdec, loadTxtLines, hne, h0, htok, fillTokens, hcast]
  · intro nrow ncol fmtin dtype npl lw l dec hdec htgt
    have hany : (List.replicate (nrow * ncol) (none : Option ℚ)).any
        Option.isNone = true := by
      rcases hmn : nrow * ncol with _ | k
      · omega
      · simp [List.replicate_succ]
    simp [load_txt, hdec, loadTxtLines, finalizeData, hany]

/-- C6 witness: the generic uncastable-token clause applied to the line
`"abcde"` with descriptor `(1F5.0)` and a 1-element float target. -/
theorem c6_fixed_width_load_witness :
    load_txt 1 1 [toPy "abcde"] .float (toPy "(1F5.0)") =
      .error (toPy "Util2d:unable to cast value") :=
  c6_fixed_width_load.2.1 1 1 (toPy "(1F5.0)") (toPy "abcde") [] .float
    1 5 'F' (some 0) (toPy "abcde") [] (by rfl) (by rfl) (by rfl)
    (by decide) (by decide)

/-- C4 counterexample: the line `"con 5.0"` has first token `"con"`,
which is none of the four free-format keywords, yet it is dispatched as
free format — the source tests `raw[0] in str(free_fmt)`, a substring
test against the rendered keyword list — and the parse returns a record
of type `"con"` instead of fixed-parsing the line. -/
theorem c4_dispatch_counterexample :
    freeDispatch (toPy "con 5.0") = true ∧
    ¬ (toPy "con" ∈ freeFmtKeywords) ∧
    parse_control_record (toPy "con 5.0") none .float none none =
      .ok ⟨some (toPy "con"), none, none, -1, none, none⟩ := by
  exact ⟨by decide, by decide, by rfl⟩

/-- C4 (amended): a line is dispatched as free format exactly when its
first whitespace token (lowercased) is a substring of the Python repr of
the keyword list `['open/close', 'internal', 'external', 'constant']` —
in particular every exact keyword dispatches — and for an exact keyword
the remaining tokens are parsed positionally as claimed: constant takes
a multiplier; internal takes multiplier, descriptor, printflag; external
takes unit, multiplier, descriptor, printflag (with the filename looked
up in the registry); open/close takes filename, multiplier, descriptor,
printflag. -/
theorem c4_free_dispatch_amended :
    (∀ (line t : PyStr) (ts : List PyStr),
       pySplitWs (pyStrip (pyLower line)) = t :: ts →
       freeDispatch line = pyContains (pyReprStrList freeFmtKeywords) t) ∧
    (∀ t ∈ freeFmtKeywords, pyContains (pyReprStrList freeFmtKeywords) t = true) ∧
    (∀ (line : PyStr) (rest : List PyStr) (dtype : DType) (cu : Option Int)
       (ed : Option (List (Int × PyStr))) (t1 : PyStr) (c : ℚ),
       pySplitWs (pyStrip (pyLower line)) = toPy "constant" :: t1 :: rest →
       parseCnstntTok dtype t1 = some c →
       parse_control_record line cu dtype ed none =
         .ok ⟨some (toPy "constant"), some c, none, -1, none, none⟩) ∧
    (∀ (line : PyStr) (rest : List PyStr) (dtype : DType) (cu : Option Int)
       (ed : Option (List (Int × PyStr))) (t1 t2 t3 : PyStr) (c : ℚ) (ip : Int),
       pySplitWs (pyStrip (pyLower line)) = toPy "internal" :: t1 :: t2 :: t3 :: rest →
       parseCnstntTok dtype t1 = some c →
       pyInt? t3 = some ip →
       parse_control_record line cu dtype ed none =
         .ok ⟨some (toPy "internal"), some c, none, ip, some (pyStrip t2), none⟩) ∧
    (∀ (line : PyStr) (rest : List PyStr) (dtype : DType) (cu : Option Int)
       (ed : Option (List (Int × PyStr))) (t1 t2 t3 t4 : PyStr) (u : Int)
       (c : ℚ) (ip : Int),
       pySplitWs (pyStrip (pyLower line)) =
         toPy "external" :: t1 :: t2 :: t3 :: t4 :: rest →
       pyInt? t1 = some u →
       parseCnstntTok dtype t2 = some c →
       pyInt? t4 = some ip →
       parse_control_record line cu dtype ed none =
         .ok ⟨some (toPy "external"), some c, some u, ip, some (pyStrip t3),
              (match ed with
               | some d => (d.lookup u).map pyStrip
               | none => none)⟩) ∧
    (∀ (line : PyStr) (rest : List PyStr) (dtype : DType) (cu : Option Int)
       (ed : Option (List (Int × PyStr))) (t1 t2 t3 t4 : PyStr) (c : ℚ)
       (ip : Int),
       pySplitWs (pyStrip (pyLower line)) =
         toPy "open/close" :: t1 :: t2 :: t3 :: t4 :: rest →
       parseCnstntTok dtype t2 = some c →
       pyInt? t4 = some ip →
       parse_control_record line cu dtype ed none =
         .ok ⟨some (toPy "open/close"), some c, none, ip, some (pyStrip t3),
              some (pyStrip t1)⟩) := by
  refine ⟨?_, by decide, ?_, ?_, ?_, ?_⟩
  · intro line t ts htok
    simp [freeDispatch, htok]
  · intro line rest dtype cu ed t1 c htok hc
    simp +decide [parse_control_record, htok, hc]
  · intro line rest dtype cu ed t1 t2 t3 c ip htok hc hip
    simp +decide [parse_control_record, htok, hc, hip]
  · intro line rest dtype cu ed t1 t2 t3 t4 u c ip htok hu hc hip
    cases ed <;> simp +decide [parse_control_record, htok, hu, hc, hip]
  · intro line rest dtype cu ed t1 t2 t3 t4 c ip htok hc hip
    simp +decide [parse_control_record, htok, hc, hip]

/-- C4 witness: positional parsing of a concrete `internal` line via the
amended theorem. -/
theorem c4_free_dispatch_amended_witness :
    parse_control_record (toPy "INTERNAL 5 (10G12.4) 3") none .float
        none none =
      .ok ⟨some (toPy "internal"), some 5, none, 3, some (toPy "(10g12.4)"),
           none⟩ :=
  c4_free_dispatch_amended.2.2.2.1 (toPy "INTERNAL 5 (10G12.4) 3") []
    .float none none (toPy "5") (toPy "(10g12.4)") (toPy "3") 5 3
    (by decide) (by decide) (by decide)

/-- C3: on a line that is not dispatched as free format,
`parse_control_record` reads columns 0-10 as the integer locat and
columns 10-20 as the multiplier, and — when locat is nonzero — columns
20-40 as the descriptor and 40-50 as the printflag, defaulting the
printflag to 0 when it cannot be parsed; it classifies locat 0 as
constant, negative locat as external binary with unit `|locat|` and the
descriptor forced to `(binary)`, a positive locat equal to the current
unit as internal, and any other positive locat as external. -/
theorem c3_fixed_control_record (line : PyStr) (cu : Option Int)
    (dtype : DType) (ed : Option (List (Int × PyStr))) (t : PyStr)
    (ts : List PyStr) (L : Int) (c : ℚ)
    (htok : pySplitWs (pyStrip (pyLower line)) = t :: ts)
    (hnk : pyContains (pyReprStrList freeFmtKeywords) t = false)
    (hL : pyInt? (pySlice line 0 10) = some L)
    (hc : parseCnstntFixed dtype line = some c) :
    (L = 0 → parse_control_record line cu dtype ed none =
      .ok ⟨some (toPy "constant"), some c, none, -1, none, none⟩) ∧
    (L < 0 → parse_control_record line cu dtype ed none =
      .ok ⟨some (toPy "external"), some c, some (-L),
           (pyInt? (pySlice line 40 50)).getD 0,
           some (toPy "(binary)"), none⟩) ∧
    (0 < L → cu = some L → parse_control_record line cu dtype ed none =
      .ok ⟨some (toPy "internal"), some c, some L,
           (pyInt? (pySlice line 40 50)).getD 0,
           some (pyStrip (pySlice line 20 40)), none⟩) ∧
    (0 < L → cu ≠ some L → parse_control_record line cu dtype ed none =
      .ok ⟨some (toPy "external"), some c, some L,
           (pyInt? (pySlice line 40 50)).getD 0,
           some (pyStrip (pySlice line 20 40)), none⟩) := by
  refine ⟨fun h0 => ?_, fun hneg => ?_, fun hpos hcu => ?_, fun hpos hcu => ?_⟩
  · simp [parse_control_record, htok, hnk, hL, hc, h0]
  · have h0 : ¬ (L = 0) := by omega
    simp [parse_control_record, htok, hnk, hL, hc, h0, hneg]
  · have h0 : ¬ (L = 0) := by omega
    have hneg : ¬ (L < 0) := by omega
    simp [parse_control_record, htok, hnk, hL, hc, h0, hneg, hcu]
  · have h0 : ¬ (L = 0) := by omega
    have hneg : ¬ (L < 0) := by omega
    simp [parse_control_record, htok, hnk, hL, hc, h0, hneg, hcu]

/-- C3 witness: a concrete fixed-format record with locat 18 equal to the
current unit (internal), multiplier 5, descriptor and printflag in their
columns. -/
theorem c3_fixed_control_record_witness :
    parse_control_record
        (toPy "        18         5          (10G12.4)         3")
        (some 18) .float none none =
      .ok ⟨some (toPy "internal"), some 5, some 18, 3,
           some (toPy "(10G12.4)"), none⟩ := by
  have h := (c3_fixed_control_record
      (toPy "        18         5          (10G12.4)         3")
      (some 18) .float none (toPy "18")
      [toPy "5", toPy "(10g12.4)", toPy "3"] 18 5
      (by decide) (by decide) (by decide) (by decide)).2.2.1
      (by norm_num) (by rfl)
  simpa using h

/-- Lemma: `descendingRange` peels off its head for nonnegative bounds. -/
theorem descendingRange_cons (hi : Int) (h : 0 ≤ hi) :
    descendingRange hi = hi :: descendingRange (hi - 1) := by
  rcases eq_or_lt_of_le h with h0 | hpos
  · rw [← h0]
    decide
  · have h1 : hi.toNat = (hi - 1).toNat + 1 := by omega
    unfold descendingRange
    rw [if_neg (by omega), if_neg (by omega), h1, List.range_succ_eq_map]
    simp only [List.map_cons, List.map_map]
    refine congrArg₂ List.cons (by simp) (List.map_congr_left ?_)
    intro j _
    simp only [Function.comp_apply, Int.ofNat_eq_coe]
    push_cast
    ring

/-- The descending scan of `__getitem__` finds the stored entry at `k0`
when every index strictly between `k0` and the scan start is absent. -/
theorem findSome_desc {A : Type} (t2ds : List (Int × A)) (k0 : Int) (u : A)
    (hk0 : t2ds.lookup k0 = some u) (hk0nn : 0 ≤ k0) :
    ∀ (n : Nat) (hi : Int), k0 ≤ hi → (hi - k0).toNat = n →
      (∀ i : Int, k0 < i → i ≤ hi → t2ds.lookup i = none) →
      (descendingRange hi).findSome? (fun i => t2ds.lookup i) = some u := by
  intro n
  induction n with
  | zero =>
    intro hi hle hn _
    have : hi = k0 := by omega
    subst this
    rw [descendingRange_cons hi hk0nn]
    simp [List.findSome?_cons, hk0]
  | succ n ih =>
    intro hi hle hn habs
    have hlt : k0 < hi := by omega
    rw [descendingRange_cons hi (by omega)]
    have hnone : t2ds.lookup hi = none := habs hi hlt le_rfl
    simp only [List.findSome?_cons, hnone]
    exact ih (hi - 1) (by omega) (by omega)
      (fun i h1 h2 => habs i h1 (by omega))

/-- C2 counterexample: with periods stored at 0 and 3, `__getitem__(-1)`
is not an error — `-1` precedes the minimum key, so the zero-fill entry
is returned (here the `Sum.inr` of the zero-entry function applied to
-1). -/
theorem c2_lookup_negative_counterexample :
    transient2dGetitem [((0 : Int), (10 : Nat)), (3, 20)]
        (fun k => k) (-1) = .ok (.inr (-1)) := by
  decide

/-- C2 (amended): for a `Transient2d` with a non-empty period mapping,
lookup of a stored period returns its grid; lookup of an absent period
below the minimum key — including every negative period, which is
rejected only at construction time — returns the file entry of a
synthesized all-zero grid; lookup of an absent period at or above the
minimum key returns the grid at the largest present key below it
(carry-forward); an empty mapping is an error; `get_kper_entry` returns
flag 1 with the stored entry when the period is present, flag 1 with the
zero entry when it precedes the first key, and flag -1 with empty
content otherwise; and building from a mapping with a negative key
fails. -/
theorem c2_transient_lookup_amended {A B V : Type} :
    (∀ (t2ds : List (Int × A)) (zeroE : Int → B) (kper : Int) (u : A),
       t2ds.lookup kper = some u →
       transient2dGetitem t2ds zeroE kper = .ok (.inl u)) ∧
    (∀ (zeroE : Int → B) (kper : Int),
       transient2dGetitem ([] : List (Int × A)) zeroE kper =
         .error (toPy "ValueError: min() arg is an empty sequence")) ∧
    (∀ (t2ds : List (Int × A)) (zeroE : Int → B) (kper m : Int),
       t2ds.lookup kper = none →
       listMin? (t2ds.map Prod.fst) = some m →
       kper < m →
       transient2dGetitem t2ds zeroE kper = .ok (.inr (zeroE kper))) ∧
    (∀ (t2ds : List (Int × A)) (zeroE : Int → B) (kper m k0 : Int) (u : A),
       t2ds.lookup kper = none →
       listMin? (t2ds.map Prod.fst) = some m →
       ¬ kper < m →
       0 ≤ k0 → k0 ≤ kper →
       t2ds.lookup k0 = some u →
       (∀ i : Int, k0 < i → i ≤ kper → t2ds.lookup i = none) →
       transient2dGetitem t2ds zeroE kper = .ok (.inl u)) ∧
    (∀ (t2ds : List (Int × A)) (entryOf : A → PyStr) (zeroE : Int → PyStr)
       (kper : Int),
       (∀ u : A, t2ds.lookup kper = some u →
          getKperEntry t2ds entryOf zeroE kper = .ok (1, entryOf u)) ∧
       (∀ m : Int, t2ds.lookup kper = none →
          listMin? (t2ds.map Prod.fst) = some m → kper < m →
          getKperEntry t2ds entryOf zeroE kper = .ok (1, zeroE kper)) ∧
       (∀ m : Int, t2ds.lookup kper = none →
          listMin? (t2ds.map Prod.fst) = some m → ¬ kper < m →
          getKperEntry t2ds entryOf zeroE kper = .ok (-1, []))) ∧
    (∀ (mk : Int → V → Except PyStr A) (d : List (Int × V)),
       (∃ p ∈ d, p.1 < 0) →
       ∀ l : List (Int × A), buildTransientSequence mk d ≠ .ok l) := by
  refine ⟨?_, ?_, ?_, ?_, ?_, ?_⟩
  · intro t2ds zeroE kper u h
    simp [transient2dGetitem, h]
  · intro zeroE kper
    rfl
  · intro t2ds zeroE kper m h1 h2 h3
    simp [transient2dGetitem, h1, h2, h3]
  · intro t2ds zeroE kper m k0 u h1 h2 h3 h4 h5 h6 h7
    have hfs := findSome_desc t2ds k0 u h6 h4 (kper - k0).toNat kper h5 rfl h7
    simp [transient2dGetitem, h1, h2, h3, hfs]
  · intro t2ds entryOf zeroE kper
    refine ⟨fun u h => ?_, fun m h1 h2 h3 => ?_, fun m h1 h2 h3 => ?_⟩
    · simp [getKperEntry, h]
    · simp [getKperEntry, h1, h2, h3]
    · simp [getKperEntry, h1, h2, h3]
  · intro mk d hex
    induction d with
    | nil => simp at hex
    | cons p rest ih =>
      intro l
      rcases p with ⟨k, v⟩
      by_cases hk : k < 0
      · simp [buildTransientSequence, hk]
      · rcases hex with ⟨q, hq, hqneg⟩
        rcases List.mem_cons.mp hq with rfl | hmem
        · exact absurd hqneg hk
        · intro hok
          rw [buildTransientSequence, if_neg hk] at hok
          rcases hmk : mk k v with e | u
          · rw [hmk] at hok
            exact Except.noConfusion hok
          · rw [hmk] at hok
            rcases hbuild : buildTransientSequence mk rest with e | tl
            · rw [hbuild] at hok
              exact Except.noConfusion hok
            · exact ih ⟨q, hmem, hqneg⟩ tl hbuild

/-- C2 witness: carry-forward on the mapping `{0 → 10, 3 → 20}` —
`__getitem__(5)` returns the grid stored at 3. -/
theorem c2_transient_lookup_amended_witness :
    transient2dGetitem [((0 : Int), (10 : Nat)), (3, 20)]
        (fun _ => ([] : PyStr)) 5 = .ok (.inl 20) :=
  (@c2_transient_lookup_amended Nat PyStr Unit).2.2.2.1 [((0 : Int), (10 : Nat)), (3, 20)]
    (fun _ => ([] : PyStr)) 5 0 3 20 (by decide) (by decide) (by norm_num)
    (by norm_num) (by norm_num) (by decide)
    (by
      intro i h1 h2
      interval_cases i <;> decide)

end Flopy
